import Mathlib

/-!
Verification of the TCP echo/add server (`src/server.rs`).

The development shallowly embeds the two layers of the program:

* `handle` models `Client::handle` (one read / decode / dispatch / respond
  cycle, `src/server.rs` lines 24-88).  The protobuf codec is an external
  collaborator (spec section 1 and 6), so `handle` is parametric in a
  `decode` and an `encode` function; the socket is modelled by a `HandleEnv`
  recording the outcome of the single read and of the write/flush performed
  by `send_response`.  Machine `i32` values are `Int` with explicit
  twos-complement wrap-around (`wrap32`) where the code can overflow.

* `Step` is a transition system for `Server::run` (lines 114-179), the
  per-connection task loops (lines 140-163) and `Server::stop`
  (lines 182-189): the state carries the running flag, the mutex-guarded
  `connection_count`, the number of unterminated connection tasks, and
  whether `run()` has returned.  Every counter mutation in the source is
  inside one `Mutex` critical section, so each lock-protected
  read-modify-write is one atomic transition of `Step`.
-/

deriving instance DecidableEq for Except

namespace RustServer

/-- The `client_message::Message` oneof payload of a decoded
`ClientMessage` (`Echo{content}` or `AddRequest{a,b}`). -/
inductive ClientVariant where
  | echoMessage (content : String)
  | addRequest (a b : Int)
deriving DecidableEq, Repr

/-- A `ClientMessage` envelope; prost models an unset oneof as `None`. -/
structure ClientMessage where
  message : Option ClientVariant
deriving DecidableEq, Repr

/-- The `server_message::Message` oneof payload of a `ServerMessage`. -/
inductive ServerVariant where
  | echoMessage (content : String)
  | addResponse (result : Int)
deriving DecidableEq, Repr

/-- A `ServerMessage`, the response envelope built by the handlers. -/
structure ServerMessage where
  message : Option ServerVariant
deriving DecidableEq, Repr

/-- An `std::io::Error`, classified by `ErrorKind` exactly as the source
inspects it: `WouldBlock` versus every other kind (tagged by a code). -/
inductive IoErr where
  | wouldBlock
  | other (code : Nat)
deriving DecidableEq, Repr

/-- Log level of a `log::` line emitted on a path (`info!`, `warn!`,
`error!`). -/
inductive LogLevel where
  | info
  | warn
  | error
deriving DecidableEq, Repr

/-- Outcome of the socket operations available to one `handle` call:
the single `read` (`Ok bytes` where `[]` means 0 bytes read, or an
I/O error) and the errors, if any, of `write_all` and `flush`. -/
structure HandleEnv where
  readRes : Except IoErr (List Nat)
  writeErr : Option IoErr
  flushErr : Option IoErr
deriving DecidableEq, Repr

/-- What one `Client::handle` call returns and does: the
`io::Result<bool>` (`true` = keep the connection), the bytes written to
the socket, and the log line it emits, if any. -/
structure HandleOut where
  result : Except IoErr Bool
  written : List Nat
  log : Option LogLevel
deriving DecidableEq, Repr

/-- Twos-complement wrap-around into the `i32` range, the
overflow-defined semantics of `add.a + add.b` at line 74. -/
def wrap32 (z : Int) : Int :=
  (z + 2 ^ 31) % 2 ^ 32 - 2 ^ 31

/-- Predicate: `z` is representable as an `i32`. -/
def inI32 (z : Int) : Prop :=
  -(2 ^ 31) ≤ z ∧ z < 2 ^ 31

instance (z : Int) : Decidable (inI32 z) := by
  unfold inI32; infer_instance

/-- Model of `Client::send_response` (lines 82-87): encode, `write_all`, `flush`;
either `?` propagates the I/O error, otherwise `Ok(true)`.  Returns the
result together with the bytes that reached the socket. -/
def send_response (encode : ServerMessage → List Nat) (env : HandleEnv)
    (response : ServerMessage) : Except IoErr Bool × List Nat :=
  let payload := encode response
  match env.writeErr with
  | some e => (Except.error e, [])
  | none =>
    match env.flushErr with
    | some e => (Except.error e, payload)
    | none => (Except.ok true, payload)

/-- Model of `Client::handle_echo` (lines 67-72): wrap the received `EchoMessage`
unchanged in a `ServerMessage` and send it. -/
def handle_echo (encode : ServerMessage → List Nat) (env : HandleEnv)
    (content : String) : Except IoErr Bool × List Nat :=
  send_response encode env { message := some (.echoMessage content) }

/-- Model of `Client::handle_add` (lines 73-81): `result = add.a + add.b` with
i32 wrap-around, wrapped in an `AddResponse` and sent. -/
def handle_add (encode : ServerMessage → List Nat) (env : HandleEnv)
    (a b : Int) : Except IoErr Bool × List Nat :=
  send_response encode env
    { message := some (.addResponse (wrap32 (a + b))) }

/-- Model of `Client::handle` (lines 24-66): one read into the 1024-byte buffer,
then the match on the read outcome and the decoded message. -/
def handle (decode : List Nat → Option ClientMessage)
    (encode : ServerMessage → List Nat) (env : HandleEnv) : HandleOut :=
  match env.readRes with
  | Except.ok [] =>
      { result := Except.ok false, written := [], log := none }
  | Except.ok data =>
      match decode data with
      | some clientMsg =>
        match clientMsg.message with
        | some (.echoMessage content) =>
            let r := handle_echo encode env content
            { result := r.1, written := r.2, log := some .info }
        | some (.addRequest a b) =>
            let r := handle_add encode env a b
            { result := r.1, written := r.2, log := some .info }
        | none =>
            { result := Except.ok true, written := [], log := some .error }
      | none =>
          { result := Except.ok true, written := [], log := some .error }
  | Except.error IoErr.wouldBlock =>
      { result := Except.ok true, written := [], log := none }
  | Except.error e =>
      { result := Except.error e, written := [], log := none }

/-- Action the per-connection loop takes after one `handle` call. -/
inductive TaskAction where
  | continueLoop
  | breakLoop
deriving DecidableEq, Repr

/-- The match in the spawned task (lines 143-157): `Ok(true)` sleeps and
continues, `Ok(false)` logs info and breaks, `Err` logs error and
breaks.  Returns the action and the log line. -/
def taskStep (r : Except IoErr Bool) : TaskAction × Option LogLevel :=
  match r with
  | Except.ok true => (TaskAction.continueLoop, none)
  | Except.ok false => (TaskAction.breakLoop, some .info)
  | Except.error _ => (TaskAction.breakLoop, some .error)

/-- Global state of the server: the `is_running` flag, whether the
listener was put in non-blocking mode, the mutex-guarded
`connection_count`, the number of spawned-but-unterminated connection
tasks, and the value `run()` returned (`none` while still looping). -/
structure SysState where
  running : Bool
  listenerNB : Bool
  count : Int
  tasks : Nat
  runRet : Option (Except IoErr Unit)
deriving DecidableEq, Repr

/-- State at the top of the accept loop of `run()` right after line 119:
flag stored `true`, listener non-blocking, no connection yet. -/
def initState : SysState :=
  { running := true, listenerNB := true, count := 0, tasks := 0,
    runRet := none }

/-- The prologue of `Server::run` (lines 115-119): store `true` into
`is_running` and set the listener non-blocking. -/
def runStart (s : SysState) : SysState :=
  { s with running := true, listenerNB := true }

/-- Model of `Server::stop` (lines 182-189): store `false` only when the flag is
currently `true` (info log); otherwise leave everything unchanged and
emit a warning. -/
def stop (s : SysState) : SysState × LogLevel :=
  if s.running then ({ s with running := false }, LogLevel.info)
  else (s, LogLevel.warn)

/-- One interleaved transition of the accept loop, a connection task, or
`stop()`.  Each counter access in the source holds the mutex for exactly
the increment or decrement, so it is one transition here. -/
inductive Step : SysState → SysState → Prop where
  /-- Lines 123-163: `accept` succeeds, the counter is incremented under
  the lock, `set_nonblocking` on the stream succeeds, a task is
  spawned. -/
  | acceptOk (s : SysState) (h₁ : s.runRet = none) (h₂ : s.running = true) :
      Step s { s with count := s.count + 1, tasks := s.tasks + 1 }
  /-- Lines 126-133: `accept` succeeds and the counter is incremented,
  but `stream.set_nonblocking(true)?` fails, so `run()` returns the
  error before any task is spawned. -/
  | acceptNbFail (s : SysState) (e : IoErr) (h₁ : s.runRet = none)
      (h₂ : s.running = true) :
      Step s { s with count := s.count + 1,
                      runRet := some (Except.error e) }
  /-- Lines 167-170: `accept` would block; sleep 100ms and loop. -/
  | acceptWouldBlock (s : SysState) (h₁ : s.runRet = none)
      (h₂ : s.running = true) : Step s s
  /-- Lines 171-173: any other `accept` error is logged and the loop
  continues. -/
  | acceptErrOther (s : SysState) (e : IoErr) (h₁ : s.runRet = none)
      (h₂ : s.running = true) : Step s s
  /-- Lines 121, 177-178: the loop condition sees `is_running == false`;
  `run()` returns `Ok(())`. -/
  | runExit (s : SysState) (h₁ : s.runRet = none)
      (h₂ : s.running = false) :
      Step s { s with runRet := some (Except.ok ()) }
  /-- Lines 182-189: `stop()` flips the flag (or warns). -/
  | stopCall (s : SysState) : Step s (stop s).1
  /-- Lines 158-163: a connection task leaves its loop (peer closed,
  I/O error, or flag observed false) and decrements the counter under
  the lock, exactly once. -/
  | taskExit (s : SysState) (h : 0 < s.tasks) :
      Step s { s with count := s.count - 1, tasks := s.tasks - 1 }

/-- States reachable by interleavings of the transitions. -/
def Reachable : SysState → SysState → Prop :=
  Relation.ReflTransGen Step

/-- The accept-then-set-nonblocking-failure successor of `initState`:
counter incremented, no task, `run()` returned the error. -/
def nbFailState : SysState :=
  { initState with count := initState.count + 1,
                   runRet := some (Except.error (IoErr.other 0)) }

/-- A concrete codec behavior used to exercise the theorems on closed
inputs; the byte strings are the protobuf encodings prost would
produce for these envelopes. -/
def demoDecode : List Nat → Option ClientMessage := fun data =>
  if data = [10, 3, 10, 1, 65] then some ⟨some (.echoMessage "A")⟩
  else if data = [18, 4, 8, 10, 16, 20] then some ⟨some (.addRequest 10 20)⟩
  else if data = [0] then some ⟨none⟩
  else none

/-- The matching concrete encoder. -/
def demoEncode : ServerMessage → List Nat := fun m =>
  match m.message with
  | some (.echoMessage _) => [10, 3, 10, 1, 65]
  | some (.addResponse _) => [18, 2, 8, 30]
  | none => []

/-- Wrap-around is the identity on sums that stay inside the `i32`
range. -/
theorem wrap32_eq_of_inI32 (z : Int) (h : inI32 z) : wrap32 z = z := by
  obtain ⟨h₁, h₂⟩ := h
  have hmod : (z + 2 ^ 31) % 2 ^ 32 = z + 2 ^ 31 :=
    Int.emod_eq_of_lt (by omega) (by omega)
  unfold wrap32
  omega

/-- C1: for every decoded `AddRequest{a,b}`, `handle` computes the sum
with wrapping 32-bit arithmetic (overflow is not guarded), builds
`AddResponse{result}`, writes its encoding and returns `Continue`
(`Ok(true)`); on non-overflowing pairs the response carries exactly
`a + b`. -/
theorem handle_add_request_correct
    (decode : List Nat → Option ClientMessage)
    (encode : ServerMessage → List Nat)
    (env : HandleEnv) (data : List Nat) (a b : Int)
    (hread : env.readRes = Except.ok data) (hne : data ≠ [])
    (hdec : decode data = some ⟨some (.addRequest a b)⟩)
    (hw : env.writeErr = none) (hf : env.flushErr = none) :
    handle decode encode env =
      { result := Except.ok true,
        written := encode ⟨some (.addResponse (wrap32 (a + b)))⟩,
        log := some .info } ∧
    (inI32 (a + b) →
      handle decode encode env =
        { result := Except.ok true,
          written := encode ⟨some (.addResponse (a + b))⟩,
          log := some .info }) := by
  cases data with
  | nil => exact absurd rfl hne
  | cons x xs =>
    have hmain : handle decode encode env =
        { result := Except.ok true,
          written := encode ⟨some (.addResponse (wrap32 (a + b)))⟩,
          log := some .info } := by
      simp [handle, hread, hdec, handle_add, send_response, hw, hf]
    refine ⟨hmain, fun hin => ?_⟩
    rw [hmain, wrap32_eq_of_inI32 (a + b) hin]

/-- Witness for C1 on the concrete request `AddRequest{10,20}`. -/
theorem handle_add_request_correct_witness :
    (Except.ok [18, 4, 8, 10, 16, 20] =
      (Except.ok [18, 4, 8, 10, 16, 20] : Except IoErr (List Nat))) ∧
    ([18, 4, 8, 10, 16, 20] ≠ ([] : List Nat)) ∧
    (demoDecode [18, 4, 8, 10, 16, 20] =
      some ⟨some (.addRequest 10 20)⟩) ∧
    (handle demoDecode demoEncode
        { readRes := Except.ok [18, 4, 8, 10, 16, 20],
          writeErr := none, flushErr := none } =
      { result := Except.ok true,
        written := demoEncode ⟨some (.addResponse (wrap32 (10 + 20)))⟩,
        log := some .info } ∧
    (inI32 (10 + 20) →
      handle demoDecode demoEncode
          { readRes := Except.ok [18, 4, 8, 10, 16, 20],
            writeErr := none, flushErr := none } =
        { result := Except.ok true,
          written := demoEncode ⟨some (.addResponse (10 + 20))⟩,
          log := some .info })) :=
  ⟨rfl, by decide, by decide,
    handle_add_request_correct demoDecode demoEncode
      { readRes := Except.ok [18, 4, 8, 10, 16, 20],
        writeErr := none, flushErr := none }
      [18, 4, 8, 10, 16, 20] 10 20 rfl (by decide) (by decide) rfl rfl⟩

/-- C4: when the read bytes decode to `Echo{content}`, `handle` builds
the response envelope with the identical content, writes its full
encoding, and returns `Continue`. -/
theorem handle_echo_idempotent
    (decode : List Nat → Option ClientMessage)
    (encode : ServerMessage → List Nat)
    (env : HandleEnv) (data : List Nat) (s : String)
    (hread : env.readRes = Except.ok data) (hne : data ≠ [])
    (hdec : decode data = some ⟨some (.echoMessage s)⟩)
    (hw : env.writeErr = none) (hf : env.flushErr = none) :
    handle decode encode env =
      { result := Except.ok true,
        written := encode ⟨some (.echoMessage s)⟩,
        log := some .info } := by
  cases data with
  | nil => exact absurd rfl hne
  | cons x xs =>
    simp [handle, hread, hdec, handle_echo, send_response, hw, hf]

/-- Witness for C4 on the concrete message `Echo{"A"}`. -/
theorem handle_echo_idempotent_witness :
    (Except.ok [10, 3, 10, 1, 65] =
      (Except.ok [10, 3, 10, 1, 65] : Except IoErr (List Nat))) ∧
    ([10, 3, 10, 1, 65] ≠ ([] : List Nat)) ∧
    (demoDecode [10, 3, 10, 1, 65] = some ⟨some (.echoMessage "A")⟩) ∧
    handle demoDecode demoEncode
        { readRes := Except.ok [10, 3, 10, 1, 65],
          writeErr := none, flushErr := none } =
      { result := Except.ok true,
        written := demoEncode ⟨some (.echoMessage "A")⟩,
        log := some .info } :=
  ⟨rfl, by decide, by decide,
    handle_echo_idempotent demoDecode demoEncode
      { readRes := Except.ok [10, 3, 10, 1, 65],
        writeErr := none, flushErr := none }
      [10, 3, 10, 1, 65] "A" rfl (by decide) (by decide) rfl rfl⟩

/-- C5: on a read of N>0 bytes that fail to decode, or decode to an
envelope with no variant set, `handle` logs an error, writes nothing,
and returns `Continue` — the connection is not torn down. -/
theorem handle_decode_leniency
    (decode : List Nat → Option ClientMessage)
    (encode : ServerMessage → List Nat)
    (env : HandleEnv) (data : List Nat)
    (hread : env.readRes = Except.ok data) (hne : data ≠ [])
    (hdec : decode data = none ∨ decode data = some ⟨none⟩) :
    handle decode encode env =
      { result := Except.ok true, written := [], log := some .error } := by
  cases data with
  | nil => exact absurd rfl hne
  | cons x xs =>
    rcases hdec with hdec | hdec <;>
      simp [handle, hread, hdec]

/-- Witness for C5 on the byte string `[0]`, which decodes to an
envelope with an empty oneof. -/
theorem handle_decode_leniency_witness :
    (Except.ok [0] = (Except.ok [0] : Except IoErr (List Nat))) ∧
    ([0] ≠ ([] : List Nat)) ∧
    (demoDecode [0] = none ∨ demoDecode [0] = some ⟨none⟩) ∧
    handle demoDecode demoEncode
        { readRes := Except.ok [0], writeErr := none, flushErr := none } =
      { result := Except.ok true, written := [], log := some .error } :=
  ⟨rfl, by decide, Or.inr (by decide),
    handle_decode_leniency demoDecode demoEncode
      { readRes := Except.ok [0], writeErr := none, flushErr := none }
      [0] rfl (by decide) (Or.inr (by decide))⟩

/-- C6: the read-outcome mapping — a read of 0 bytes yields `Closed`
(`Ok(false)`), after which the task breaks with an info (not error)
log; a read failing with any I/O error other than would-block yields
`Error(e)` carrying that error, after which the task logs an error and
breaks. -/
theorem handle_read_outcome_mapping
    (decode : List Nat → Option ClientMessage)
    (encode : ServerMessage → List Nat)
    (env₀ envE : HandleEnv) (n : Nat)
    (h₀ : env₀.readRes = Except.ok [])
    (hE : envE.readRes = Except.error (IoErr.other n)) :
    handle decode encode env₀ =
      { result := Except.ok false, written := [], log := none } ∧
    taskStep (Except.ok false) = (TaskAction.breakLoop, some .info) ∧
    handle decode encode envE =
      { result := Except.error (IoErr.other n), written := [],
        log := none } ∧
    taskStep (Except.error (IoErr.other n)) =
      (TaskAction.breakLoop, some .error) := by
  refine ⟨?_, rfl, ?_, rfl⟩
  · simp [handle, h₀]
  · simp [handle, hE]

/-- Witness for C6 on a 0-byte read and a read failing with a concrete
non-would-block error. -/
theorem handle_read_outcome_mapping_witness :
    ((Except.ok [] : Except IoErr (List Nat)) = Except.ok []) ∧
    ((Except.error (IoErr.other 5) : Except IoErr (List Nat)) =
      Except.error (IoErr.other 5)) ∧
    (handle demoDecode demoEncode
        { readRes := Except.ok [], writeErr := none, flushErr := none } =
      { result := Except.ok false, written := [], log := none } ∧
    taskStep (Except.ok false) = (TaskAction.breakLoop, some .info) ∧
    handle demoDecode demoEncode
        { readRes := Except.error (IoErr.other 5), writeErr := none,
          flushErr := none } =
      { result := Except.error (IoErr.other 5), written := [],
        log := none } ∧
    taskStep (Except.error (IoErr.other 5)) =
      (TaskAction.breakLoop, some .error)) :=
  ⟨rfl, rfl,
    handle_read_outcome_mapping demoDecode demoEncode
      { readRes := Except.ok [], writeErr := none, flushErr := none }
      { readRes := Except.error (IoErr.other 5), writeErr := none,
        flushErr := none } 5 rfl rfl⟩

/-- C3 counterexample: the claim says no would-block on read OR WRITE
ever makes `handle` return `Error`, but `send_response` propagates a
would-block from `write_all` via `?` (line 84): on a valid `Echo`
request whose write reports would-block, `handle` returns
`Err(WouldBlock)` and the task therefore breaks the loop. -/
theorem write_would_block_returns_error :
    (handle demoDecode demoEncode
        { readRes := Except.ok [10, 3, 10, 1, 65],
          writeErr := some IoErr.wouldBlock, flushErr := none }).result =
      Except.error IoErr.wouldBlock ∧
    taskStep (Except.error IoErr.wouldBlock) =
      (TaskAction.breakLoop, some .error) := by
  decide

/-- C3 amended: a would-block on READ never terminates the connection —
`handle` returns `Continue` without decoding or writing; but a
would-block during write propagates out of `handle` as an `Error`, and
every `handle` error (would-block included) makes the connection task
log and break its loop, never retrying the connection. -/
theorem read_would_block_continues
    (decode : List Nat → Option ClientMessage)
    (encode : ServerMessage → List Nat)
    (env : HandleEnv) (e : IoErr)
    (hread : env.readRes = Except.error IoErr.wouldBlock) :
    handle decode encode env =
      { result := Except.ok true, written := [], log := none } ∧
    taskStep (Except.error e) = (TaskAction.breakLoop, some .error) := by
  exact ⟨by simp [handle, hread], rfl⟩

/-- Witness for the amended C3 on a read that reports would-block. -/
theorem read_would_block_continues_witness :
    ((Except.error IoErr.wouldBlock : Except IoErr (List Nat)) =
      Except.error IoErr.wouldBlock) ∧
    (handle demoDecode demoEncode
        { readRes := Except.error IoErr.wouldBlock, writeErr := none,
          flushErr := none } =
      { result := Except.ok true, written := [], log := none } ∧
    taskStep (Except.error (IoErr.other 7)) =
      (TaskAction.breakLoop, some .error)) :=
  ⟨rfl,
    read_would_block_continues demoDecode demoEncode
      { readRes := Except.error IoErr.wouldBlock, writeErr := none,
        flushErr := none } (IoErr.other 7) rfl⟩

/-- C10: `handle` is deterministic in the outcome of its own socket
operations — two calls whose read delivers the same bytes and whose
write/flush behave the same produce the same result, the same written
bytes and the same log; the state of other connections is not an input. -/
theorem handle_deterministic
    (decode : List Nat → Option ClientMessage)
    (encode : ServerMessage → List Nat)
    (env₁ env₂ : HandleEnv)
    (hr : env₁.readRes = env₂.readRes)
    (hw : env₁.writeErr = env₂.writeErr)
    (hf : env₁.flushErr = env₂.flushErr) :
    handle decode encode env₁ = handle decode encode env₂ := by
  cases env₁
  cases env₂
  simp_all

/-- Witness for C10 on two structurally distinct but observationally
equal environments. -/
theorem handle_deterministic_witness :
    (({ readRes := Except.ok [0], writeErr := none,
        flushErr := none } : HandleEnv).readRes =
      ({ readRes := Except.ok [0 + 0], writeErr := none,
         flushErr := none } : HandleEnv).readRes) ∧
    handle demoDecode demoEncode
        { readRes := Except.ok [0], writeErr := none, flushErr := none } =
      handle demoDecode demoEncode
        { readRes := Except.ok [0 + 0], writeErr := none,
          flushErr := none } :=
  ⟨by decide,
    handle_deterministic demoDecode demoEncode
      { readRes := Except.ok [0], writeErr := none, flushErr := none }
      { readRes := Except.ok [0 + 0], writeErr := none, flushErr := none }
      (by decide) rfl rfl⟩

/-- C2 counterexample: the counter does NOT always equal the number of
unterminated tasks — when `stream.set_nonblocking(true)?` fails right
after the increment (lines 126-133), `run()` returns the error with the
counter at 1 while no task was ever spawned. -/
theorem count_diverges_from_tasks :
    Reachable initState nbFailState ∧
    nbFailState.count ≠ (nbFailState.tasks : Int) :=
  ⟨Relation.ReflTransGen.single
      (Step.acceptNbFail initState (IoErr.other 0) rfl rfl),
    by decide⟩

/-- C2 amended: in every reachable state in which `run()` has not
aborted with an error (in particular, while it is still looping or
after it returned `Ok`), `connection_count` equals the number of
currently-unterminated connection tasks; each increment is one accepted
connection and each task exit decrements exactly once, all under the
single mutex. -/
theorem connection_count_matches_tasks (s : SysState)
    (h : Reachable initState s)
    (hok : s.runRet = none ∨ s.runRet = some (Except.ok ())) :
    s.count = (s.tasks : Int) := by
  have key : ∀ t : SysState, Reachable initState t →
      (t.runRet = none ∨ t.runRet = some (Except.ok ())) →
      t.count = (t.tasks : Int) := by
    intro t ht
    induction ht with
    | refl => intro _; rfl
    | tail hbc hstep ih =>
      rename_i b c
      intro hc
      cases hstep with
      | acceptOk h₁ h₂ =>
        have hb := ih (Or.inl h₁)
        show b.count + 1 = ((b.tasks + 1 : Nat) : Int)
        omega
      | acceptNbFail e h₁ h₂ =>
        simp at hc
      | acceptWouldBlock h₁ h₂ => exact ih hc
      | acceptErrOther e h₁ h₂ => exact ih hc
      | runExit h₁ h₂ =>
        exact ih (Or.inl h₁)
      | stopCall =>
        by_cases hr : b.running = true <;>
          simp only [stop, hr, if_true, if_false] at hc ⊢ <;>
          exact ih hc
      | taskExit hpos =>
        have hb := ih hc
        show b.count - 1 = ((b.tasks - 1 : Nat) : Int)
        omega
  exact key s h hok

/-- Witness for the amended C2 at the initial state. -/
theorem connection_count_matches_tasks_witness :
    Reachable initState initState ∧
    (initState.runRet = none ∨
      initState.runRet = some (Except.ok ())) ∧
    initState.count = (initState.tasks : Int) :=
  ⟨Relation.ReflTransGen.refl, Or.inl rfl,
    connection_count_matches_tasks initState Relation.ReflTransGen.refl
      (Or.inl rfl)⟩

/-- C7: `run()` sets the running flag true and puts the listener in
non-blocking mode; while looping, any accept error other than
would-block leaves the state unchanged and the loop continues
(non-fatal); and when the flag is observed false the loop exits and
`run()` returns `Ok`. -/
theorem run_accept_loop_behavior (s : SysState) (e : IoErr)
    (h₁ : s.runRet = none) :
    ((runStart s).running = true ∧ (runStart s).listenerNB = true) ∧
    (s.running = true → Step s s) ∧
    (s.running = false →
      Step s { s with runRet := some (Except.ok ()) }) := by
  refine ⟨⟨rfl, rfl⟩, fun h₂ => ?_, fun h₂ => ?_⟩
  · exact Step.acceptErrOther s e h₁ h₂
  · exact Step.runExit s h₁ h₂

/-- Witness for C7 at the initial state with a concrete accept error. -/
theorem run_accept_loop_behavior_witness :
    initState.runRet = none ∧
    (((runStart initState).running = true ∧
      (runStart initState).listenerNB = true) ∧
    (initState.running = true → Step initState initState) ∧
    (initState.running = false →
      Step initState { initState with runRet := some (Except.ok ()) })) :=
  ⟨rfl, run_accept_loop_behavior initState (IoErr.other 3) rfl⟩

/-- C8: `stop()` forces the flag to false; a second `stop()` leaves the
state of the first one unchanged and is observable only through a
warning (never an error) log level; on an already-stopped state it
changes nothing and warns. -/
theorem stop_idempotent (s : SysState) :
    (stop s).1.running = false ∧
    (stop (stop s).1).1 = (stop s).1 ∧
    (stop (stop s).1).2 = LogLevel.warn ∧
    (stop { s with running := false }).1 = { s with running := false } ∧
    (stop { s with running := false }).2 = LogLevel.warn := by
  cases s with
  | mk r nb c t rr => cases r <;> simp [stop]

/-- C9: when `set_nonblocking` on the accepted stream fails, the
transition (lines 126-133) makes `run()` return that `IoError`
immediately, after the counter increment and before any task is
spawned; the resulting state keeps the incremented counter with no new
task to decrement it. -/
theorem nonblocking_failure_aborts_run (s : SysState) (e : IoErr)
    (h₁ : s.runRet = none) (h₂ : s.running = true) :
    Step s { s with count := s.count + 1,
                    runRet := some (Except.error e) } ∧
    ({ s with count := s.count + 1,
              runRet := some (Except.error e) } : SysState).count =
      s.count + 1 ∧
    ({ s with count := s.count + 1,
              runRet := some (Except.error e) } : SysState).tasks =
      s.tasks ∧
    ({ s with count := s.count + 1,
              runRet := some (Except.error e) } : SysState).runRet =
      some (Except.error e) :=
  ⟨Step.acceptNbFail s e h₁ h₂, rfl, rfl, rfl⟩

/-- Witness for C9 at the initial state with a concrete error. -/
theorem nonblocking_failure_aborts_run_witness :
    initState.runRet = none ∧ initState.running = true ∧
    (Step initState
        { initState with count := initState.count + 1,
                         runRet := some (Except.error (IoErr.other 9)) } ∧
    ({ initState with count := initState.count + 1,
                      runRet := some (Except.error (IoErr.other 9)) }
        : SysState).count = initState.count + 1 ∧
    ({ initState with count := initState.count + 1,
                      runRet := some (Except.error (IoErr.other 9)) }
        : SysState).tasks = initState.tasks ∧
    ({ initState with count := initState.count + 1,
                      runRet := some (Except.error (IoErr.other 9)) }
        : SysState).runRet = some (Except.error (IoErr.other 9))) :=
  ⟨rfl, rfl,
    nonblocking_failure_aborts_run initState (IoErr.other 9) rfl rfl⟩

end RustServer
